import Mathlib

namespace Unipixel

/-- The linear congruential step of Noise3D.initPermutation (line 94):
rng = (rng * 1664525 + 1013904223) >>> 0. -/
def lcgStep (r : ℕ) : ℕ := (r * 1664525 + 1013904223) % 4294967296

/-- The rng value after k LCG steps, starting from seed >>> 0 (line 92). -/
def rngSeq (seed : ℕ) : ℕ → ℕ
  | 0 => seed % 4294967296
  | k + 1 => lcgStep (rngSeq seed k)

/-- The destructuring swap [p[i], p[j]] = [p[j], p[i]] of line 96, on a
table represented as a function from indices to entries. -/
def swapFun (f : Fin 256 → ℕ) (i j : Fin 256) : Fin 256 → ℕ :=
  fun t => if t = i then f j else if t = j then f i else f t

/-- State of the table p of initPermutation after k iterations of the
Fisher-Yates loop of lines 93-97.  Iteration k (0-based) handles loop
index i = 255 - k and swaps it with j = rng % (i + 1), where rng is the
(k+1)-st LCG value. -/
def pIter (seed : ℕ) : ℕ → (Fin 256 → ℕ)
  | 0 => fun t => t.val
  | k + 1 =>
    let i : ℕ := 255 - k
    let j : ℕ := rngSeq seed (k + 1) % (i + 1)
    swapFun (pIter seed k) ⟨i, by omega⟩
      ⟨j, Nat.lt_of_lt_of_le (Nat.mod_lt _ (by omega)) (by omega)⟩

/-- The table p after the full shuffle (i has run from 255 down to 1). -/
def pFinal (seed : ℕ) : Fin 256 → ℕ := pIter seed 255

/-- The 512-entry permutation table this.perm: lines 99-101 set
perm[i] = perm[i + 256] = p[i], i.e. perm[n] = p[n % 256] for n < 512.
Out-of-range reads (impossible in noise, see the C10 theorem) give 0. -/
def perm (seed : ℕ) (n : ℕ) : ℕ :=
  if _h : n < 512 then pFinal seed ⟨n % 256, Nat.mod_lt _ (by omega)⟩ else 0

/-- Noise3D.fade (line 104): t * t * t * (t * (t * 6 - 15) + 10). -/
def fade (t : ℚ) : ℚ := t * t * t * (t * (t * 6 - 15) + 10)

/-- Noise3D.lerp (line 105): a + t * (b - a). -/
def lerp (a b t : ℚ) : ℚ := a + t * (b - a)

/-- Noise3D.grad (lines 107-112).  hash & 15 is hash % 16; h & 1 and
h & 2 test the low two bits. -/
def grad (hash : ℕ) (x y z : ℚ) : ℚ :=
  let h := hash % 16
  let u := if h < 8 then x else y
  let v := if h < 4 then y else if h = 12 ∨ h = 14 then x else z
  (if h % 2 = 1 then -u else u) + (if h / 2 % 2 = 1 then -v else v)

/-- Noise3D.noise (lines 114-147) over an arbitrary permutation table p.
Math.floor(x) & 255 is the Euclidean residue of the floor mod 256
(JavaScript & masks the low bits of the two's-complement integer);
x -= Math.floor(x) leaves the fractional part. -/
def noiseP (p : ℕ → ℕ) (x y z : ℚ) : ℚ :=
  let X : ℕ := ((⌊x⌋ : ℤ) % 256).toNat
  let Y : ℕ := ((⌊y⌋ : ℤ) % 256).toNat
  let Z : ℕ := ((⌊z⌋ : ℤ) % 256).toNat
  let xf : ℚ := x - (⌊x⌋ : ℤ)
  let yf : ℚ := y - (⌊y⌋ : ℤ)
  let zf : ℚ := z - (⌊z⌋ : ℤ)
  let u := fade xf
  let v := fade yf
  let w := fade zf
  let A := p X + Y
  let AA := p A + Z
  let AB := p (A + 1) + Z
  let B := p (X + 1) + Y
  let BA := p B + Z
  let BB := p (B + 1) + Z
  lerp
    (lerp (lerp (grad (p AA) xf yf zf) (grad (p BA) (xf - 1) yf zf) u)
          (lerp (grad (p AB) xf (yf - 1) zf) (grad (p BB) (xf - 1) (yf - 1) zf) u)
          v)
    (lerp (lerp (grad (p (AA + 1)) xf yf (zf - 1)) (grad (p (BA + 1)) (xf - 1) yf (zf - 1)) u)
          (lerp (grad (p (AB + 1)) xf (yf - 1) (zf - 1)) (grad (p (BB + 1)) (xf - 1) (yf - 1) (zf - 1)) u)
          v)
    w

/-- Noise3D.noise of a field constructed with the given seed. -/
def noise (seed : ℕ) (x y z : ℚ) : ℚ := noiseP (perm seed) x y z

/-- Loop state of Noise3D.fbm (lines 149-158) after n octaves:
(value, amplitude, frequency, maxValue). -/
def fbmLoop (seed : ℕ) (x y z persistence : ℚ) : ℕ → ℚ × ℚ × ℚ × ℚ
  | 0 => (0, 1, 1, 0)
  | n + 1 =>
    match fbmLoop seed x y z persistence n with
    | (value, amplitude, frequency, maxValue) =>
      (value + noise seed (x * frequency) (y * frequency) (z * frequency) * amplitude,
       amplitude * persistence, frequency * 2, maxValue + amplitude)

/-- Noise3D.fbm (lines 149-158): (value / maxValue) * 0.5 + 0.5.  The
JavaScript defaults are octaves = 8, persistence = 0.5; here both are
explicit arguments. -/
def fbm (seed : ℕ) (x y z : ℚ) (octaves : ℕ) (persistence : ℚ) : ℚ :=
  match fbmLoop seed x y z persistence octaves with
  | (value, _, _, maxValue) => (value / maxValue) * (1/2) + 1/2

/-- Loop state of Noise3D.turbulence (lines 160-169) after n octaves:
(value, amplitude, frequency, maxValue). -/
def turbLoop (seed : ℕ) (x y z : ℚ) : ℕ → ℚ × ℚ × ℚ × ℚ
  | 0 => (0, 1, 1, 0)
  | n + 1 =>
    match turbLoop seed x y z n with
    | (value, amplitude, frequency, maxValue) =>
      (value + |noise seed (x * frequency) (y * frequency) (z * frequency)| * amplitude,
       amplitude * (1/2), frequency * 2, maxValue + amplitude)

/-- Noise3D.turbulence (lines 160-169): value / maxValue. -/
def turbulence (seed : ℕ) (x y z : ℚ) (octaves : ℕ) : ℚ :=
  match turbLoop seed x y z octaves with
  | (value, _, _, maxValue) => value / maxValue

/-- Loop state of Noise3D.ridged (lines 171-183) after n octaves:
(value, amplitude, frequency, weight).  Per octave the signal is
(1 - |noise|)^2 * weight (signal *= signal * weight after
signal = 1 - Math.abs(signal)), and the next weight is the signal
doubled and clamped to [0,1]. -/
def ridgedLoop (seed : ℕ) (x y z : ℚ) : ℕ → ℚ × ℚ × ℚ × ℚ
  | 0 => (0, 1, 1, 1)
  | n + 1 =>
    match ridgedLoop seed x y z n with
    | (value, amplitude, frequency, weight) =>
      let signal0 := noise seed (x * frequency) (y * frequency) (z * frequency)
      let signal1 := 1 - |signal0|
      let signal2 := signal1 * (signal1 * weight)
      (value + signal2 * amplitude, amplitude * (1/2), frequency * 2,
       min 1 (max 0 (signal2 * 2)))

/-- Noise3D.ridged (lines 171-183): Math.min(1, Math.max(0, value * 0.5)). -/
def ridged (seed : ℕ) (x y z : ℚ) (octaves : ℕ) : ℚ :=
  min 1 (max 0 ((ridgedLoop seed x y z octaves).1 * (1/2)))

/-- The indices at which Noise3D.noise (lines 127-146) reads this.perm:
the two masked x-lattice coordinates and the twelve derived corner
indices, including the + 1 offsets. -/
def noiseIndices (p : ℕ → ℕ) (x y z : ℚ) : List ℕ :=
  let X : ℕ := ((⌊x⌋ : ℤ) % 256).toNat
  let Y : ℕ := ((⌊y⌋ : ℤ) % 256).toNat
  let Z : ℕ := ((⌊z⌋ : ℤ) % 256).toNat
  let A := p X + Y
  let AA := p A + Z
  let AB := p (A + 1) + Z
  let B := p (X + 1) + Y
  let BA := p B + Z
  let BB := p (B + 1) + Z
  [X, X + 1, A, A + 1, B, B + 1, AA, AA + 1, AB, AB + 1, BA, BA + 1, BB, BB + 1]

/-- A JavaScript palette object: named color-stop lists. -/
abbrev Palette := List (String × List String)

/-- Field access colors.key on a palette object. -/
def pget (colors : Palette) (k : String) : List String := (colors.lookup k).getD []

/-- JavaScript array indexing arr[i] for a possibly computed index
(negative or out-of-range access has no defined color; the generator
never performs one on the paths verified here). -/
def getIdx (l : List String) (i : ℤ) : String :=
  if 0 ≤ i then l.getD i.toNat "" else ""

/-- PLANET_COLORS.terran (lines 232-243). -/
def terranColors : Palette :=
  [("deep_ocean", ["#001428", "#002846", "#003d5c"]),
   ("ocean", ["#0066aa", "#0088cc", "#00aaee"]),
   ("shallow", ["#33ccff", "#66ddff"]),
   ("beach", ["#c8b090", "#e8d0b0", "#f8e0d0"]),
   ("grass", ["#2d5016", "#3d7026", "#5d9046", "#7daa66", "#9dcc88"]),
   ("forest", ["#0a3a0a", "#1a4a1a", "#2a6a2a", "#4a8a4a"]),
   ("mountain", ["#4b3b2b", "#6b5b4b", "#8b7b6b", "#ab9b8b"]),
   ("snow", ["#d8e8f8", "#f0f8ff", "#ffffff"]),
   ("cloud", ["#ffffff", "#f8fcff"]),
   ("cities", ["#ffdd88", "#ffee99"])]

/-- The terran case of getPlanetSurfaceColor (lines 598-610), returning
the hex string that the code passes to hexToRgb.  The numeric literals
0.35, 0.15, 0.08, 0.37, 0.8, 0.88, 0.6 appear as exact rationals.
Math.floor(moisture * length) % length uses the truncating JavaScript
remainder (Int.tmod). -/
def terranSurface (colors : Palette) (elevation moisture : ℚ) : String :=
  if elevation < 7/20 then
    let depth := 7/20 - elevation
    if depth > 3/20 then getIdx (pget colors "deep_ocean") 0
    else if depth > 2/25 then getIdx (pget colors "ocean") 0
    else getIdx (pget colors "shallow") 0
  else if elevation < 37/100 then getIdx (pget colors "beach") 0
  else if elevation > 4/5 then
    (if elevation > 22/25 then getIdx (pget colors "snow") 0
     else getIdx (pget colors "mountain") 0)
  else if moisture > 3/5 then
    let forest := pget colors "forest"
    getIdx forest (Int.tmod ⌊moisture * (forest.length : ℚ)⌋ (forest.length : ℤ))
  else
    let grass := pget colors "grass"
    getIdx grass (Int.tmod ⌊elevation * (grass.length : ℚ)⌋ (grass.length : ℤ))

/-- CONFIG.planetFrames (line 67). -/
def planetFrames : ℕ := 24

/-- CONFIG.planetSizes (lines 52-60). -/
def planetSizes : List (String × ℕ) :=
  [("terran", 800), ("rocky", 600), ("desert", 700),
   ("ice", 650), ("frozen", 600), ("tundra", 650),
   ("lava", 650), ("volcanic", 700), ("ocean", 850),
   ("carbon", 600), ("crystal", 600), ("metal", 550),
   ("eyeball", 650), ("tidally_locked", 650),
   ("radioactive", 600), ("super_earth", 1100),
   ("jungle", 850), ("gas_giant", 1400)]

/-- The atmosphere-bearing types of line 467. -/
def atmosphereTypes : List String := ["terran", "ocean", "jungle", "super_earth"]

/-- hasAtmosphere of line 467. -/
def hasAtmosphere (t : String) : Bool := atmosphereTypes.contains t

/-- The canvas dimensions of generatePlanet:
createCanvas(size * frames, size) (line 459). -/
def planetAtlas (size : ℕ) : ℕ × ℕ := (size * planetFrames, size)

/-- The body radius of generatePlanet: size * 0.42 (line 465). -/
def planetRadius (size : ℕ) : ℚ := (size : ℚ) * (21/50)

/-- The alpha channel written by generatePlanet for a pixel at distance
dist from the center (lines 485-550): 0 by default, an atmosphere-glow
falloff on radius < dist < radius * 1.15 for atmosphere-bearing types,
and 255 on the body (dist ≤ radius).  Pixels with alpha 0 are never drawn
(line 554), so they stay fully transparent in the atlas. -/
def planetPixelAlpha (hasAtm : Bool) (dist radius : ℚ) : ℚ :=
  let glowAlpha : ℚ :=
    if hasAtm = true ∧ radius < dist ∧ dist < radius * (23/20) then
      (1 - (dist - radius) / (radius * (3/20)))^2 * 150
    else 0
  if dist ≤ radius then 255 else glowAlpha

/-- The per-frame rotation angle of generatePlanet (line 472) and
generateMoon (line 680): (frame / frames) * Math.PI * 2.  The constant
Math.PI is an explicit parameter (written below as its first argument)
since the relation claimed of texU holds for any nonzero value of it. -/
def rotationAngle (pi : ℚ) (frames frame : ℕ) : ℚ :=
  ((frame : ℚ) / (frames : ℚ)) * pi * 2

/-- texU of generatePlanet (lines 504-506): (theta + rotation) / Math.PI,
as a function of the frame-independent angle theta = atan2(dx, z). -/
def planetTexU (pi theta : ℚ) (frames frame : ℕ) : ℚ :=
  (theta + rotationAngle pi frames frame) / pi

/-- texU of generateMoon (lines 697-700): theta and the rotation are
added before dividing by Math.PI, so the shape is the same. -/
def moonTexU (pi theta : ℚ) (frames frame : ℕ) : ℚ :=
  (theta + rotationAngle pi frames frame) / pi

/-- The per-body irregularity of generateAsteroid (line 753):
0.3 + Math.random() * 0.3, as a function of the Math.random() draw. -/
def asteroidIrregularity (r : ℚ) : ℚ := 3/10 + r * (3/10)

/-- The shape noise of generateAsteroid (line 774):
fbm(cos(angle) * 3, sin(angle) * 3, 0, 5) with the default persistence
0.5, as a function of the cosine and sine of the angle. -/
def asteroidShapeNoise (seed : ℕ) (c s : ℚ) : ℚ := fbm seed (c * 3) (s * 3) 0 5 (1/2)

/-- The angle-dependent body radius of generateAsteroid (line 775):
(baseSize * 0.4) * (1 + (shapeNoise - 0.5) * irregularity). -/
def asteroidRadius (seed : ℕ) (baseSize : ℕ) (irr c s : ℚ) : ℚ :=
  ((baseSize : ℚ) * (2/5)) * (1 + (asteroidShapeNoise seed c s - 1/2) * irr)

/-- One entry of STAR_COLORS: the base, bright and glow hex colors. -/
structure StarColor where
  base : String
  bright : String
  glow : String
deriving DecidableEq

/-- STAR_COLORS (lines 210-226). -/
def STAR_COLORS : List (String × StarColor) :=
  [("O", ⟨"#aaccff", "#ffffff", "#5588ff"⟩),
   ("B", ⟨"#bbddff", "#ffffff", "#6699ff"⟩),
   ("A", ⟨"#ddeeff", "#ffffff", "#aabbee"⟩),
   ("F", ⟨"#fffff8", "#ffffff", "#eeeeee"⟩),
   ("G", ⟨"#fff4ea", "#ffffaa", "#ffeecc"⟩),
   ("K", ⟨"#ffcc88", "#ffee66", "#ffaa66"⟩),
   ("M", ⟨"#ff9966", "#ffcc44", "#ff7744"⟩),
   ("BrownDwarf", ⟨"#8b4513", "#cd853f", "#6a3a1a"⟩),
   ("WhiteDwarf", ⟨"#f0f0ff", "#ffffff", "#d0d0ff"⟩),
   ("NeutronStar", ⟨"#00ffff", "#ffffff", "#00cccc"⟩),
   ("Pulsar", ⟨"#ff00ff", "#ffffff", "#cc00cc"⟩),
   ("RedGiant", ⟨"#ff6347", "#ffaa77", "#ff4420"⟩),
   ("BlueGiant", ⟨"#5080f0", "#c0d0ff", "#3050c0"⟩),
   ("RedSuperGiant", ⟨"#ff2000", "#ff8060", "#aa0000"⟩),
   ("BlueSuperGiant", ⟨"#0066ff", "#88ccff", "#0030cc"⟩)]

/-- PLANET_COLORS.rocky (lines 245-251). -/
def rockyColors : Palette :=
  [("dark", ["#1a1512", "#2a251f", "#3a352c"]),
   ("surface", ["#3a2d22", "#4a3d32", "#6a5d52", "#8a7d72"]),
   ("crater", ["#0a0502", "#1a1512"]),
   ("highland", ["#aa9d92", "#cabaa0", "#eadac0"]),
   ("dust", ["#b89060", "#c8a070"])]

/-- PLANET_COLORS.desert (lines 253-260). -/
def desertColors : Palette :=
  [("sand_dark", ["#b89060", "#c8a070"]),
   ("sand", ["#d2b48c", "#e6c8a0", "#fadcb4"]),
   ("dune_shadow", ["#a07850", "#b08860"]),
   ("rock", ["#6a5a4a", "#7a6a5a", "#8a7a6a", "#aa9a8a"]),
   ("canyon_deep", ["#503020", "#604030"]),
   ("canyon", ["#705040", "#907060"])]

/-- PLANET_COLORS.ice (lines 262-267). -/
def iceColors : Palette :=
  [("deep", ["#2060a0", "#3070a0", "#4080b0"]),
   ("surface", ["#70b0d0", "#80c8e0", "#a0e0f0", "#c0f0ff"]),
   ("crevasse", ["#081018", "#102030", "#203040"]),
   ("snow", ["#d0e8ff", "#e0f0ff", "#f0f8ff", "#ffffff"])]

/-- PLANET_COLORS.lava (lines 269-276). -/
def lavaColors : Palette :=
  [("molten_bright", ["#ffff00", "#ffee00"]),
   ("molten_hot", ["#ffaa00", "#ff8800", "#ff6600"]),
   ("molten", ["#ff4400", "#ff3300"]),
   ("cooling", ["#ff2200", "#cc0000", "#aa0000"]),
   ("crust_warm", ["#3a2a2a", "#4a3a3a", "#5a4a4a"]),
   ("crust", ["#1a1a1a", "#2a2a2a"])]

/-- PLANET_COLORS.ocean (lines 278-283). -/
def oceanColors : Palette :=
  [("deep", ["#000814", "#001428", "#002846", "#004878"]),
   ("mid", ["#0066aa", "#0088cc", "#0098dc"]),
   ("surface", ["#20c0ff", "#40d0ff", "#60e0ff"]),
   ("foam", ["#d0f8ff", "#e0fcff", "#ffffff"])]

/-- PLANET_COLORS.jungle (lines 285-291). -/
def jungleColors : Palette :=
  [("canopy_dark", ["#0a4a0a", "#1a5a1a"]),
   ("canopy", ["#2a7a2a", "#4a9a4a", "#6aba6a"]),
   ("understory", ["#0a3a0a", "#1a4a1a", "#2a6a2a"]),
   ("flower", ["#ff6688", "#ff88aa", "#ffaacc"]),
   ("river", ["#4a7a7a", "#6a9a9a"])]

/-- PLANET_COLORS.gas_giant (lines 293-300). -/
def gasGiantColors : Palette :=
  [("band1_dark", ["#6b4914", "#7b5914"]),
   ("band1", ["#8b6914", "#9b7934", "#ab8934"]),
   ("band2_light", ["#e2c594", "#f2d5a4", "#fce5b4"]),
   ("band2", ["#c49564", "#d4a574"]),
   ("storm", ["#cc3322", "#ee6644", "#ff8866"]),
   ("cloud", ["#ffffff", "#f8f8ff"])]

/-- The PLANET_COLORS object as written at lines 231-301, before the
moreTypes patch. -/
def PLANET_COLORS_base : List (String × Palette) :=
  [("terran", terranColors), ("rocky", rockyColors), ("desert", desertColors),
   ("ice", iceColors), ("lava", lavaColors), ("ocean", oceanColors),
   ("jungle", jungleColors), ("gas_giant", gasGiantColors)]

/-- moreTypes (lines 304-305). -/
def moreTypes : List String :=
  ["frozen", "tundra", "volcanic", "carbon", "crystal", "metal",
   "eyeball", "tidally_locked", "radioactive", "super_earth"]

/-- PLANET_COLORS after the patch of lines 306-310: each type of
moreTypes without an entry receives a copy of the terran palette. -/
def PLANET_COLORS : List (String × Palette) :=
  PLANET_COLORS_base ++ moreTypes.filterMap (fun t =>
    if (PLANET_COLORS_base.lookup t).isSome then none else some (t, terranColors))

/-- The colors chosen by generateStar (line 319):
STAR_COLORS[stellarClass] || STAR_COLORS['G'].  (The inner default of
getD is never used: the G entry exists, see claim_C9.) -/
def starColorsFor (c : String) : StarColor :=
  (STAR_COLORS.lookup c).getD ((STAR_COLORS.lookup "G").getD ⟨"", "", ""⟩)

/-- The palette chosen by generatePlanet (line 455):
PLANET_COLORS[type] || PLANET_COLORS.terran. -/
def planetColorsFor (t : String) : Palette :=
  (PLANET_COLORS.lookup t).getD ((PLANET_COLORS.lookup "terran").getD [])

set_option maxRecDepth 200000

/-- The fade curve is nonnegative on [0, 1]. -/
theorem fade_nonneg {t : ℚ} (h0 : 0 ≤ t) (_h1 : t ≤ 1) : 0 ≤ fade t := by
  unfold fade
  nlinarith [sq_nonneg (4*t - 5), mul_nonneg (mul_nonneg h0 h0) h0]

/-- The fade curve is at most 1 on [0, 1]. -/
theorem fade_le_one {t : ℚ} (h0 : 0 ≤ t) (h1 : t ≤ 1) : fade t ≤ 1 := by
  unfold fade
  nlinarith [mul_nonneg (mul_nonneg (sub_nonneg.mpr h1) (sub_nonneg.mpr h1))
    (sub_nonneg.mpr h1), sq_nonneg t, h0]

/-- Linear interpolation with a weight in [0, 1] keeps a common bound of
the endpoints. -/
theorem lerp_abs_le {a b t C : ℚ} (ha : |a| ≤ C) (hb : |b| ≤ C)
    (h0 : 0 ≤ t) (h1 : t ≤ 1) : |lerp a b t| ≤ C := by
  rw [abs_le] at ha hb ⊢
  unfold lerp
  constructor
  · nlinarith [mul_nonneg (sub_nonneg.mpr h1) (by linarith : (0:ℚ) ≤ a + C),
      mul_nonneg h0 (by linarith : (0:ℚ) ≤ b + C)]
  · nlinarith [mul_nonneg (sub_nonneg.mpr h1) (sub_nonneg.mpr ha.2),
      mul_nonneg h0 (sub_nonneg.mpr hb.2)]

/-- Every gradient value on arguments of magnitude at most 1 has
magnitude at most 2 (the gradient is a signed sum of two of them). -/
theorem grad_abs_le (h : ℕ) {x y z : ℚ} (hx : |x| ≤ 1) (hy : |y| ≤ 1)
    (hz : |z| ≤ 1) : |grad h x y z| ≤ 2 := by
  simp only [grad]
  split_ifs <;>
    · refine (abs_add _ _).trans ?_
      try simp only [abs_neg]
      linarith

/-- The raw gradient noise is bounded by 2 in magnitude, for any
permutation table whatsoever. -/
theorem noiseP_abs_le (p : ℕ → ℕ) (x y z : ℚ) : |noiseP p x y z| ≤ 2 := by
  have fr : ∀ q : ℚ, 0 ≤ q - (⌊q⌋ : ℤ) ∧ q - (⌊q⌋ : ℤ) < 1 := fun q =>
    ⟨Int.fract_nonneg q, Int.fract_lt_one q⟩
  obtain ⟨hx0, hx1⟩ := fr x
  obtain ⟨hy0, hy1⟩ := fr y
  obtain ⟨hz0, hz1⟩ := fr z
  have b1 : ∀ q : ℚ, 0 ≤ q → q < 1 → |q| ≤ 1 := fun q a b =>
    abs_le.mpr ⟨by linarith, by linarith⟩
  have b2 : ∀ q : ℚ, 0 ≤ q → q < 1 → |q - 1| ≤ 1 := fun q a b =>
    abs_le.mpr ⟨by linarith, by linarith⟩
  simp only [noiseP]
  refine lerp_abs_le
    (lerp_abs_le
      (lerp_abs_le (grad_abs_le _ (b1 _ hx0 hx1) (b1 _ hy0 hy1) (b1 _ hz0 hz1))
        (grad_abs_le _ (b2 _ hx0 hx1) (b1 _ hy0 hy1) (b1 _ hz0 hz1))
        (fade_nonneg hx0 hx1.le) (fade_le_one hx0 hx1.le))
      (lerp_abs_le (grad_abs_le _ (b1 _ hx0 hx1) (b2 _ hy0 hy1) (b1 _ hz0 hz1))
        (grad_abs_le _ (b2 _ hx0 hx1) (b2 _ hy0 hy1) (b1 _ hz0 hz1))
        (fade_nonneg hx0 hx1.le) (fade_le_one hx0 hx1.le))
      (fade_nonneg hy0 hy1.le) (fade_le_one hy0 hy1.le))
    (lerp_abs_le
      (lerp_abs_le (grad_abs_le _ (b1 _ hx0 hx1) (b1 _ hy0 hy1) (b2 _ hz0 hz1))
        (grad_abs_le _ (b2 _ hx0 hx1) (b1 _ hy0 hy1) (b2 _ hz0 hz1))
        (fade_nonneg hx0 hx1.le) (fade_le_one hx0 hx1.le))
      (lerp_abs_le (grad_abs_le _ (b1 _ hx0 hx1) (b2 _ hy0 hy1) (b2 _ hz0 hz1))
        (grad_abs_le _ (b2 _ hx0 hx1) (b2 _ hy0 hy1) (b2 _ hz0 hz1))
        (fade_nonneg hx0 hx1.le) (fade_le_one hx0 hx1.le))
      (fade_nonneg hy0 hy1.le) (fade_le_one hy0 hy1.le))
    (fade_nonneg hz0 hz1.le) (fade_le_one hz0 hz1.le)

/-- The seeded noise is bounded by 2 in magnitude. -/
theorem noise_abs_le (seed : ℕ) (x y z : ℚ) : |noise seed x y z| ≤ 2 :=
  noiseP_abs_le (perm seed) x y z

/-- Invariant of the fbm loop for nonnegative persistence: the amplitude
and total amplitude stay nonnegative, the accumulated value is bounded by
twice the total amplitude, and from the first octave on the total
amplitude is at least 1. -/
theorem fbmLoop_inv (seed : ℕ) (x y z p : ℚ) (hp : 0 ≤ p) (n : ℕ) :
    0 ≤ (fbmLoop seed x y z p n).2.1 ∧
    0 ≤ (fbmLoop seed x y z p n).2.2.2 ∧
    |(fbmLoop seed x y z p n).1| ≤ 2 * (fbmLoop seed x y z p n).2.2.2 ∧
    1 ≤ (fbmLoop seed x y z p n).2.2.2 + (fbmLoop seed x y z p n).2.1 ∧
    (1 ≤ n → 1 ≤ (fbmLoop seed x y z p n).2.2.2) := by
  induction n with
  | zero => simp [fbmLoop]
  | succ n ih =>
    rcases hE : fbmLoop seed x y z p n with ⟨v, a, f, m⟩
    rw [hE] at ih
    obtain ⟨ha, hm, hv, hma, _hm1⟩ := ih
    simp only at ha hm hv hma
    simp only [fbmLoop, hE]
    have hn := noise_abs_le seed (x * f) (y * f) (z * f)
    have habs : |v + noise seed (x * f) (y * f) (z * f) * a| ≤
        |v| + |noise seed (x * f) (y * f) (z * f)| * a := by
      refine (abs_add _ _).trans ?_
      rw [abs_mul, abs_of_nonneg ha]
    have hprod := mul_le_mul_of_nonneg_right hn ha
    refine ⟨mul_nonneg ha hp, add_nonneg hm ha, ?_, ?_, fun _ => hma⟩
    · linarith
    · nlinarith [mul_nonneg ha hp]

/-- For nonnegative persistence, fbm lands in [-1/2, 3/2]: the
accumulated value divided by the total amplitude lies in [-2, 2] and the
final remap halves it and shifts by 1/2. -/
theorem fbm_mem (seed : ℕ) (x y z : ℚ) (octaves : ℕ) (p : ℚ) (hp : 0 ≤ p) :
    -(1/2) ≤ fbm seed x y z octaves p ∧ fbm seed x y z octaves p ≤ 3/2 := by
  rcases Nat.eq_zero_or_pos octaves with h0 | h1
  · subst h0
    norm_num [fbm, fbmLoop]
  · have inv := fbmLoop_inv seed x y z p hp octaves
    rcases hE : fbmLoop seed x y z p octaves with ⟨v, a, f, m⟩
    rw [hE] at inv
    obtain ⟨_ha, _hm, hv, _hma, hm1⟩ := inv
    simp only at hv hm1
    have hm : (1:ℚ) ≤ m := hm1 h1
    have hdiv : |v / m| ≤ 2 := by
      rw [abs_div, abs_of_nonneg (by linarith : (0:ℚ) ≤ m)]
      rw [div_le_iff₀ (by linarith : (0:ℚ) < m)]
      linarith
    rw [abs_le] at hdiv
    simp only [fbm, hE]
    constructor <;> linarith [hdiv.1, hdiv.2]

/-- Invariant of the turbulence loop: the accumulated value is
nonnegative and bounded by twice the total amplitude, and from the first
octave on the total amplitude is at least 1. -/
theorem turbLoop_inv (seed : ℕ) (x y z : ℚ) (n : ℕ) :
    0 ≤ (turbLoop seed x y z n).2.1 ∧
    0 ≤ (turbLoop seed x y z n).1 ∧
    (turbLoop seed x y z n).1 ≤ 2 * (turbLoop seed x y z n).2.2.2 ∧
    1 ≤ (turbLoop seed x y z n).2.2.2 + (turbLoop seed x y z n).2.1 ∧
    (1 ≤ n → 1 ≤ (turbLoop seed x y z n).2.2.2) := by
  induction n with
  | zero => simp [turbLoop]
  | succ n ih =>
    rcases hE : turbLoop seed x y z n with ⟨v, a, f, m⟩
    rw [hE] at ih
    obtain ⟨ha, hv0, hv, hma, _hm1⟩ := ih
    simp only at ha hv0 hv hma
    simp only [turbLoop, hE]
    have hn := noise_abs_le seed (x * f) (y * f) (z * f)
    have hn0 : 0 ≤ |noise seed (x * f) (y * f) (z * f)| := abs_nonneg _
    have hprod := mul_le_mul_of_nonneg_right hn ha
    refine ⟨by linarith, by positivity, by linarith, by linarith, fun _ => hma⟩

/-- turbulence lands in [0, 2]. -/
theorem turbulence_mem (seed : ℕ) (x y z : ℚ) (octaves : ℕ) :
    0 ≤ turbulence seed x y z octaves ∧ turbulence seed x y z octaves ≤ 2 := by
  rcases Nat.eq_zero_or_pos octaves with h0 | h1
  · subst h0
    norm_num [turbulence, turbLoop]
  · have inv := turbLoop_inv seed x y z octaves
    rcases hE : turbLoop seed x y z octaves with ⟨v, a, f, m⟩
    rw [hE] at inv
    obtain ⟨_ha, hv0, hv, _hma, hm1⟩ := inv
    simp only at hv0 hv hm1
    have hm : (1:ℚ) ≤ m := hm1 h1
    simp only [turbulence, hE]
    constructor
    · exact div_nonneg hv0 (by linarith)
    · rw [div_le_iff₀ (by linarith : (0:ℚ) < m)]
      linarith

/-- ridged lands in [0, 1], unconditionally: the returned value is
clamped by Math.min(1, Math.max(0, _)). -/
theorem ridged_mem (seed : ℕ) (x y z : ℚ) (octaves : ℕ) :
    0 ≤ ridged seed x y z octaves ∧ ridged seed x y z octaves ≤ 1 :=
  ⟨le_min (by norm_num) (le_max_left 0 _), min_le_left 1 _⟩

/-- The destructuring swap acts on a table as precomposition with the
transposition of the two indices. -/
theorem swapFun_eq (f : Fin 256 → ℕ) (i j : Fin 256) :
    swapFun f i j = fun t => f (Equiv.swap i j t) := by
  funext t
  simp only [swapFun, Equiv.swap_apply_def]
  split_ifs <;> rfl

/-- After any number of Fisher-Yates iterations the table is the identity
table precomposed with a permutation of the indices. -/
theorem pIter_exists_equiv (seed : ℕ) (n : ℕ) :
    ∃ σ : Equiv.Perm (Fin 256), pIter seed n = fun t => (σ t).val := by
  induction n with
  | zero => exact ⟨Equiv.refl _, rfl⟩
  | succ k ih =>
    obtain ⟨σ, hσ⟩ := ih
    refine ⟨(Equiv.swap ⟨255 - k, by omega⟩
      ⟨rngSeq seed (k + 1) % (255 - k + 1),
        Nat.lt_of_lt_of_le (Nat.mod_lt _ (by omega)) (by omega)⟩).trans σ, ?_⟩
    simp only [pIter]
    rw [swapFun_eq, hσ]
    rfl

/-- Every entry of the 512-entry table is below 256. -/
theorem perm_lt_256 (seed : ℕ) (n : ℕ) : perm seed n < 256 := by
  unfold perm
  split
  · obtain ⟨σ, hσ⟩ := pIter_exists_equiv seed 255
    rw [pFinal, hσ]
    exact (σ _).isLt
  · norm_num

/-- C1: the permutation table is a pure function of the seed, the noise
value is a pure function of (permutation table, x, y, z), and the seeded
noise is exactly the table-parameterised noise applied to the seed's
table; hence identical (seed, x, y, z) always yield identical output.
(Noise3D mutates no state after construction, which the embedding records
by perm and noiseP being plain functions.) -/
theorem claim_C1 :
    (∀ s₁ s₂ : ℕ, s₁ = s₂ → perm s₁ = perm s₂) ∧
    (∀ (p₁ p₂ : ℕ → ℕ) (x₁ y₁ z₁ x₂ y₂ z₂ : ℚ), p₁ = p₂ → x₁ = x₂ → y₁ = y₂ → z₁ = z₂ →
      noiseP p₁ x₁ y₁ z₁ = noiseP p₂ x₂ y₂ z₂) ∧
    (∀ (seed : ℕ) (x y z : ℚ), noise seed x y z = noiseP (perm seed) x y z) := by
  refine ⟨?_, ?_, ?_⟩ <;> intros <;> subst_vars <;> rfl

/-- Witness for C1: two evaluations of the same noise field at equal
inputs written differently agree. -/
theorem claim_C1_witness :
    noiseP (perm 5) (1/2) (1/3) (1/4) = noiseP (perm 5) (2/4) (2/6) (2/8) :=
  claim_C1.2.1 (perm 5) (perm 5) _ _ _ _ _ _ rfl (by norm_num) (by norm_num) (by norm_num)

/-- C2 (amended): the noise value always lies in [-2, 2].  The original
claim of [-1, 1] is refuted by claim_C2_counterexample: classic gradient
noise with the 16 signed two-axis gradients can exceed 1 slightly. -/
theorem claim_C2 (seed : ℕ) (x y z : ℚ) :
    -2 ≤ noise seed x y z ∧ noise seed x y z ≤ 2 :=
  abs_le.mp (noise_abs_le seed x y z)

/-- Counterexample to C2 as stated: for seed 1 at
(x, y, z) = (329/2, 71/2, 499/3) the noise value is 503/486 > 1, outside
[-1, 1]. -/
theorem claim_C2_counterexample :
    ¬ (-1 ≤ noise 1 (329/2) (71/2) (499/3) ∧ noise 1 (329/2) (71/2) (499/3) ≤ 1) := by
  decide!

/-- C3 (amended): for octaves ≥ 1, turbulence lies in [0, 2] and ridged
lies in [0, 1]; fbm lies in [-1/2, 3/2] when persistence is nonnegative.
The original [0, 1] claim is refuted by claim_C3_counterexample (the raw
noise octave can exceed 1, see C2), and without the persistence
restriction fbm is not even so bounded. -/
theorem claim_C3 (seed : ℕ) (x y z : ℚ) (octaves : ℕ) (persistence : ℚ)
    (_hoct : 1 ≤ octaves) :
    (0 ≤ persistence →
      -(1/2) ≤ fbm seed x y z octaves persistence ∧
        fbm seed x y z octaves persistence ≤ 3/2) ∧
    (0 ≤ turbulence seed x y z octaves ∧ turbulence seed x y z octaves ≤ 2) ∧
    (0 ≤ ridged seed x y z octaves ∧ ridged seed x y z octaves ≤ 1) :=
  ⟨fun hp => fbm_mem seed x y z octaves persistence hp,
   turbulence_mem seed x y z octaves, ridged_mem seed x y z octaves⟩

/-- Witness for C3 at seed 1, origin, one octave, persistence 1/2. -/
theorem claim_C3_witness :
    -(1/2) ≤ fbm 1 0 0 0 1 (1/2) ∧ fbm 1 0 0 0 1 (1/2) ≤ 3/2 :=
  (claim_C3 1 0 0 0 1 (1/2) (by norm_num)).1 (by norm_num)

/-- Counterexample to C3 as stated: with one octave and the default
persistence 0.5, fbm at seed 1 and (329/2, 71/2, 499/3) is
989/972 > 1, outside [0, 1]. -/
theorem claim_C3_counterexample :
    ¬ (0 ≤ fbm 1 (329/2) (71/2) (499/3) 1 (1/2) ∧
       fbm 1 (329/2) (71/2) (499/3) 1 (1/2) ≤ 1) := by
  decide!

/-- C4: for every seed, the first 256 entries of the table are a
permutation of 0..255, entry n + 256 equals entry n for n < 256, and
every entry fits in a byte.  (The table is a pure function of the seed,
never mutated after construction: perm is a plain function.) -/
theorem claim_C4 (seed : ℕ) :
    (List.ofFn (fun i : Fin 256 => perm seed i.val)).Perm (List.range 256) ∧
    (∀ n, n < 256 → perm seed (n + 256) = perm seed n) ∧
    (∀ n, perm seed n ≤ 255) := by
  obtain ⟨σ, hσ⟩ := pIter_exists_equiv seed 255
  refine ⟨?_, ?_, fun n => Nat.lt_succ_iff.mp (perm_lt_256 seed n)⟩
  · have h1 : (fun i : Fin 256 => perm seed i.val) = fun i : Fin 256 => (Fin.val ∘ σ) i := by
      funext i
      simp only [perm, Function.comp_apply]
      rw [dif_pos (by omega : i.val < 512), pFinal, hσ]
      congr 1
      exact Fin.ext (Nat.mod_eq_of_lt i.isLt)
    rw [h1]
    have h2 : List.ofFn (fun i : Fin 256 => (Fin.val ∘ σ) i) = List.ofFn (Fin.val ∘ σ) := rfl
    rw [h2]
    refine (Equiv.Perm.ofFn_comp_perm σ Fin.val).trans ?_
    rw [List.ofFn_eq_map, List.map_coe_finRange]
  · intro n hn
    unfold perm
    rw [dif_pos (by omega : n + 256 < 512), dif_pos (by omega : n < 512)]
    congr 1
    exact Fin.ext (show (n + 256) % 256 = n % 256 by omega)

/-- Witness for C4: the doubled half of the seed-0 table repeats the
first half at index 3. -/
theorem claim_C4_witness : perm 0 (3 + 256) = perm 0 3 :=
  (claim_C4 0).2.1 3 (by norm_num)

/-- C10: every index at which noise reads the 512-entry permutation
table, including the + 1 offsets, is within bounds 0..511: each base
index is a table value of at most 255 plus a masked coordinate of at
most 255. -/
theorem claim_C10 (seed : ℕ) (x y z : ℚ) :
    ∀ i ∈ noiseIndices (perm seed) x y z, i < 512 := by
  intro i hi
  have hp : ∀ n, perm seed n ≤ 255 := fun n => Nat.lt_succ_iff.mp (perm_lt_256 seed n)
  have hco : ∀ q : ℚ, ((⌊q⌋ : ℤ) % 256).toNat ≤ 255 := by
    intro q
    have h1 := Int.emod_nonneg (⌊q⌋ : ℤ) (by norm_num : (256:ℤ) ≠ 0)
    have h2 := Int.emod_lt_of_pos (⌊q⌋ : ℤ) (by norm_num : (0:ℤ) < 256)
    omega
  have hX := hco x
  have hY := hco y
  have hZ := hco z
  have h1 := hp (((⌊x⌋ : ℤ) % 256).toNat)
  have h2 := hp (perm seed (((⌊x⌋ : ℤ) % 256).toNat) + ((⌊y⌋ : ℤ) % 256).toNat)
  have h3 := hp (perm seed (((⌊x⌋ : ℤ) % 256).toNat) + ((⌊y⌋ : ℤ) % 256).toNat + 1)
  have h4 := hp ((((⌊x⌋ : ℤ) % 256).toNat) + 1)
  have h5 := hp (perm seed ((((⌊x⌋ : ℤ) % 256).toNat) + 1) + ((⌊y⌋ : ℤ) % 256).toNat)
  have h6 := hp (perm seed ((((⌊x⌋ : ℤ) % 256).toNat) + 1) + ((⌊y⌋ : ℤ) % 256).toNat + 1)
  simp only [noiseIndices, List.mem_cons, List.not_mem_nil, or_false] at hi
  rcases hi with h|h|h|h|h|h|h|h|h|h|h|h|h|h <;> omega

/-- Witness for C10: the first read index for seed 1 at (15/2, 1/2, 1/2)
is the masked lattice coordinate 7, and it is within bounds. -/
theorem claim_C10_witness :
    7 ∈ noiseIndices (perm 1) (15/2) (1/2) (1/2) ∧ 7 < 512 :=
  ⟨by decide!, claim_C10 1 (15/2) (1/2) (1/2) 7 (by decide!)⟩

/-- In-range JavaScript indexing picks an element of the list. -/
theorem getIdx_mem {l : List String} {i : ℤ} (h0 : 0 ≤ i) (h1 : i < l.length) :
    getIdx l i ∈ l := by
  unfold getIdx
  rw [if_pos h0]
  have hlt : i.toNat < l.length := by omega
  rw [List.getD_eq_getElem l _ hlt]
  exact List.getElem_mem hlt

/-- C5: the terran threshold ladder.  Elevation below 0.35 gives water,
graded by depth = 0.35 - elevation (deep ocean above 0.15, ocean above
0.08, shallow otherwise); elevation in [0.35, 0.37) gives beach;
elevation above 0.8 gives mountain, or snow above 0.88; otherwise forest
when moisture exceeds 0.6, else grass.  At elevation exactly 0.35 the
strict comparison puts the pixel on the beach side, deterministically
(terranSurface is a function, so every evaluation agrees). -/
theorem claim_C5 (e m : ℚ) :
    (e < 7/20 → 7/20 - e > 3/20 → terranSurface terranColors e m = "#001428") ∧
    (e < 7/20 → 7/20 - e ≤ 3/20 → 7/20 - e > 2/25 →
      terranSurface terranColors e m = "#0066aa") ∧
    (e < 7/20 → 7/20 - e ≤ 2/25 → terranSurface terranColors e m = "#33ccff") ∧
    (7/20 ≤ e → e < 37/100 → terranSurface terranColors e m = "#c8b090") ∧
    (4/5 < e → e ≤ 22/25 → terranSurface terranColors e m = "#4b3b2b") ∧
    (22/25 < e → terranSurface terranColors e m = "#d8e8f8") ∧
    (37/100 ≤ e → e ≤ 4/5 → 3/5 < m →
      terranSurface terranColors e m ∈ pget terranColors "forest") ∧
    (37/100 ≤ e → e ≤ 4/5 → m ≤ 3/5 →
      terranSurface terranColors e m ∈ pget terranColors "grass") ∧
    terranSurface terranColors (7/20) m = "#c8b090" := by
  refine ⟨?_, ?_, ?_, ?_, ?_, ?_, ?_, ?_, ?_⟩
  · intro h1 h2
    simp only [terranSurface]
    rw [if_pos h1, if_pos h2]
    decide!
  · intro h1 h2 h3
    simp only [terranSurface]
    rw [if_pos h1, if_neg (not_lt.mpr h2), if_pos h3]
    decide!
  · intro h1 h2
    simp only [terranSurface]
    rw [if_pos h1, if_neg (not_lt.mpr (by linarith : 7/20 - e ≤ 3/20)),
      if_neg (not_lt.mpr h2)]
    decide!
  · intro h1 h2
    simp only [terranSurface]
    rw [if_neg (not_lt.mpr h1), if_pos h2]
    decide!
  · intro h1 h2
    simp only [terranSurface]
    rw [if_neg (not_lt.mpr (by linarith : 7/20 ≤ e)),
      if_neg (not_lt.mpr (by linarith : 37/100 ≤ e)), if_pos h1,
      if_neg (not_lt.mpr h2)]
    decide!
  · intro h1
    simp only [terranSurface]
    rw [if_neg (not_lt.mpr (by linarith : 7/20 ≤ e)),
      if_neg (not_lt.mpr (by linarith : 37/100 ≤ e)),
      if_pos (by linarith : 4/5 < e), if_pos h1]
    decide!
  · intro h1 h2 h3
    simp only [terranSurface]
    rw [if_neg (not_lt.mpr (by linarith : 7/20 ≤ e)),
      if_neg (not_lt.mpr (by linarith : 37/100 ≤ e)),
      if_neg (not_lt.mpr h2), if_pos h3]
    refine getIdx_mem (Int.tmod_nonneg _ (Int.le_floor.mpr (by push_cast; nlinarith))) ?_
    exact Int.tmod_lt_of_pos _ (by decide!)
  · intro h1 h2 h3
    simp only [terranSurface]
    rw [if_neg (not_lt.mpr (by linarith : 7/20 ≤ e)),
      if_neg (not_lt.mpr (by linarith : 37/100 ≤ e)),
      if_neg (not_lt.mpr h2), if_neg (not_lt.mpr h3)]
    refine getIdx_mem (Int.tmod_nonneg _ (Int.le_floor.mpr (by push_cast; nlinarith))) ?_
    exact Int.tmod_lt_of_pos _ (by decide!)
  · simp only [terranSurface]
    rw [if_neg (by norm_num : ¬((7:ℚ)/20 < 7/20)), if_pos (by norm_num : (7:ℚ)/20 < 37/100)]
    decide!

/-- Witness for C5: a point with elevation 0.1 (depth 0.25) classifies as
deep ocean. -/
theorem claim_C5_witness : terranSurface terranColors (1/10) (1/2) = "#001428" :=
  (claim_C5 (1/10) (1/2)).1 (by norm_num) (by norm_num)

/-- C6: for every planet type of the configuration, the atlas is
bodySize * frameCount wide and bodySize high; every sampled pixel with
dist ≤ radius gets alpha 255; every pixel at or beyond the outer
atmosphere-glow radius 1.15 * radius is left fully transparent; and for
types without an atmosphere everything strictly beyond the body radius
is fully transparent. -/
theorem claim_C6 (t : String) (size : ℕ) (hmem : (t, size) ∈ planetSizes) :
    planetAtlas size = (size * 24, size) ∧
    (∀ dist : ℚ, dist ≤ planetRadius size →
      planetPixelAlpha (hasAtmosphere t) dist (planetRadius size) = 255) ∧
    (∀ dist : ℚ, planetRadius size * (23/20) ≤ dist →
      planetPixelAlpha (hasAtmosphere t) dist (planetRadius size) = 0) ∧
    (hasAtmosphere t = false → ∀ dist : ℚ, planetRadius size < dist →
      planetPixelAlpha (hasAtmosphere t) dist (planetRadius size) = 0) := by
  have hpos : 0 < size := by fin_cases hmem <;> norm_num
  have hrad : (0:ℚ) < planetRadius size := by
    unfold planetRadius
    have : (0:ℚ) < (size : ℚ) := by exact_mod_cast hpos
    nlinarith
  refine ⟨rfl, ?_, ?_, ?_⟩
  · intro dist hdist
    simp only [planetPixelAlpha]
    rw [if_pos hdist]
  · intro dist hdist
    simp only [planetPixelAlpha]
    rw [if_neg (not_le.mpr (by nlinarith : planetRadius size < dist)),
      if_neg (by push_neg; intro _ _; linarith)]
  · intro hatm dist hdist
    simp only [planetPixelAlpha]
    rw [if_neg (not_le.mpr hdist), if_neg (by rw [hatm]; simp)]

/-- Witness for C6: the terran configuration (size 800, radius 336); a
pixel at distance 100 is opaque. -/
theorem claim_C6_witness :
    planetPixelAlpha (hasAtmosphere "terran") 100 (planetRadius 800) = 255 :=
  (claim_C6 "terran" 800 (by decide!)).2.1 100 (by norm_num [planetRadius])

/-- C7: advancing the rotation by one full turn (frame index = frameCount)
adds exactly 2 to texU for planets and for moons, so texU is unchanged
modulo 2 and the rotation animation loops seamlessly. -/
theorem claim_C7 (pi theta : ℚ) (frames : ℕ) (hpi : pi ≠ 0) (hf : frames ≠ 0) :
    planetTexU pi theta frames frames = planetTexU pi theta frames 0 + 2 ∧
    moonTexU pi theta frames frames = moonTexU pi theta frames 0 + 2 := by
  have hfq : (frames : ℚ) ≠ 0 := Nat.cast_ne_zero.mpr hf
  constructor <;>
    · simp only [planetTexU, moonTexU, rotationAngle]
      push_cast
      field_simp
      ring

/-- Witness for C7 with a rational stand-in for Math.PI and the
24-frame planet configuration. -/
theorem claim_C7_witness :
    planetTexU (355/113) 1 24 24 = planetTexU (355/113) 1 24 0 + 2 :=
  (claim_C7 (355/113) 1 24 (by norm_num) (by norm_num)).1

/-- C8: the irregularity always lies in [0.3, 0.6]; the radius at any
angle is baseRadius * (1 + (shapeNoise - 0.5) * irregularity) with
baseRadius = baseSize * 0.4; and that radius stays within
[baseRadius * (1 - irregularity), baseRadius * (1 + irregularity)]. -/
theorem claim_C8 (seed baseSize : ℕ) (r c s : ℚ) (hr0 : 0 ≤ r) (hr1 : r < 1) :
    (3/10 ≤ asteroidIrregularity r ∧ asteroidIrregularity r ≤ 3/5) ∧
    asteroidRadius seed baseSize (asteroidIrregularity r) c s =
      ((baseSize : ℚ) * (2/5)) *
        (1 + (asteroidShapeNoise seed c s - 1/2) * asteroidIrregularity r) ∧
    ((baseSize : ℚ) * (2/5)) * (1 - asteroidIrregularity r) ≤
      asteroidRadius seed baseSize (asteroidIrregularity r) c s ∧
    asteroidRadius seed baseSize (asteroidIrregularity r) c s ≤
      ((baseSize : ℚ) * (2/5)) * (1 + asteroidIrregularity r) := by
  have hirr : 3/10 ≤ asteroidIrregularity r ∧ asteroidIrregularity r ≤ 3/5 := by
    unfold asteroidIrregularity
    constructor <;> nlinarith
  obtain ⟨hi0, hi1⟩ := hirr
  have hsn := fbm_mem seed (c * 3) (s * 3) 0 5 (1/2) (by norm_num)
  have hb : (0:ℚ) ≤ (baseSize : ℚ) * (2/5) := by positivity
  refine ⟨⟨hi0, hi1⟩, rfl, ?_, ?_⟩ <;>
    · unfold asteroidRadius
      rcases hsn with ⟨hs1, hs2⟩
      unfold asteroidShapeNoise at *
      nlinarith [mul_le_mul_of_nonneg_left
        (mul_le_mul_of_nonneg_right (by linarith : fbm seed (c*3) (s*3) 0 5 (1/2) - 1/2 ≤ 1)
          (by linarith : (0:ℚ) ≤ asteroidIrregularity r)) hb,
        mul_le_mul_of_nonneg_left
        (mul_le_mul_of_nonneg_right (by linarith : -1 ≤ fbm seed (c*3) (s*3) 0 5 (1/2) - 1/2)
          (by linarith : (0:ℚ) ≤ asteroidIrregularity r)) hb]

/-- Witness for C8 at a median random draw. -/
theorem claim_C8_witness :
    3/10 ≤ asteroidIrregularity (1/2) ∧ asteroidIrregularity (1/2) ≤ 3/5 :=
  (claim_C8 1 180 (1/2) 1 0 (by norm_num) (by norm_num)).1

/-- C9: color lookup never fails.  For any key absent from the star
table the G star colors are used; for any key absent from the (patched)
planet table the terran palette is used; and those documented defaults
are the actual G and terran entries of the tables. -/
theorem claim_C9 (k : String) :
    (STAR_COLORS.lookup k = none →
      starColorsFor k = ⟨"#fff4ea", "#ffffaa", "#ffeecc"⟩) ∧
    (PLANET_COLORS.lookup k = none → planetColorsFor k = terranColors) ∧
    STAR_COLORS.lookup "G" = some ⟨"#fff4ea", "#ffffaa", "#ffeecc"⟩ ∧
    PLANET_COLORS.lookup "terran" = some terranColors := by
  refine ⟨?_, ?_, by decide!, by decide!⟩
  · intro h
    unfold starColorsFor
    rw [h]
    decide!
  · intro h
    unfold planetColorsFor
    rw [h]
    decide!

/-- Witness for C9: the key Z is in neither table, so it falls back to
the G star colors and the terran palette. -/
theorem claim_C9_witness :
    starColorsFor "Z" = ⟨"#fff4ea", "#ffffaa", "#ffeecc"⟩ ∧
    planetColorsFor "Z" = terranColors :=
  ⟨(claim_C9 "Z").1 (by decide!), (claim_C9 "Z").2.1 (by decide!)⟩

end Unipixel
